import Mathlib

/-!
Verification of the PyBaMM symbolic model-composition engine against its
specification.  The development shallowly embeds the two source files
`pybamm/models/lithium_ion/dfn.py` and
`pybamm/models/submodels/electrolyte_current.py`, together with the parts of
the engine (expression graph, concatenation, merge protocol, standard
variables, and the sibling physical submodels) that those files use but whose
code is not part of the given sources; the latter are modelled from the
specification and are marked as such in their doc comments.
-/

namespace PyBaMM

/-- Errors raised synchronously during symbolic model construction
(spec section 7): domain mismatches, merge key collisions, missing
dictionary keys, and unpacking failures. -/
inductive PybammError where
  | domainError (msg : String)
  | modelError (field : String)
  | keyError (key : String)
  | valueError (msg : String)
deriving DecidableEq

/-- Expression-graph nodes (spec section 3): scalar constants, named state
variables with a domain tag, parameters, arithmetic operators, scalar
function applications (one- and two-argument), spatial operators, broadcast
and three-part concatenation.  All DFN concatenations join exactly the
negative-electrode, separator and positive-electrode pieces, so the
concatenation node is ternary here. -/
inductive Expr where
  | scalar (v : Int)
  | var (name : String) (dom : List String)
  | parameter (name : String)
  | add (a b : Expr)
  | sub (a b : Expr)
  | mul (a b : Expr)
  | division (a b : Expr)
  | pow (a b : Expr)
  | neg (a : Expr)
  | fn (name : String) (a : Expr)
  | fn2 (name : String) (a b : Expr)
  | grad (a : Expr)
  | divergence (a : Expr)
  | average (a : Expr)
  | surf (a : Expr) (dom : List String)
  | broadcast (a : Expr) (dom : List String)
  | concatenation (a b c : Expr)
deriving DecidableEq

/-- Union of two operand domains (spec section 4.1): compatible operand
domains are equal or one of them is empty, and the result is the non-empty
one. -/
def domainUnion (d1 d2 : List String) : List String :=
  if d1 = [] then d2 else d1

/-- Domain of an expression (spec section 3): leaf domains are stored,
arithmetic takes the union of the operand domains, spatial reductions
(average) drop the domain, and a concatenation's domain is the ordered
union of its children's domains. -/
def Expr.domain : Expr → List String
  | .scalar _ => []
  | .var _ d => d
  | .parameter _ => []
  | .add a b => domainUnion a.domain b.domain
  | .sub a b => domainUnion a.domain b.domain
  | .mul a b => domainUnion a.domain b.domain
  | .division a b => domainUnion a.domain b.domain
  | .pow a b => domainUnion a.domain b.domain
  | .neg a => a.domain
  | .fn _ a => a.domain
  | .fn2 _ a b => domainUnion a.domain b.domain
  | .grad a => a.domain
  | .divergence a => a.domain
  | .average _ => []
  | .surf _ d => d
  | .broadcast _ d => d
  | .concatenation a b c => a.domain ++ b.domain ++ c.domain

/-- Children of an expression node.  Modelled from the spec: `orphans`
decomposes a concatenation back into its domain-tagged parts (spec
section 4.2); on the underlying symbol class it returns the ordered
children of any node. -/
def Expr.orphans : Expr → List Expr
  | .scalar _ => []
  | .var _ _ => []
  | .parameter _ => []
  | .add a b => [a, b]
  | .sub a b => [a, b]
  | .mul a b => [a, b]
  | .division a b => [a, b]
  | .pow a b => [a, b]
  | .neg a => [a]
  | .fn _ a => [a]
  | .fn2 _ a b => [a, b]
  | .grad a => [a]
  | .divergence a => [a]
  | .average a => [a]
  | .surf a _ => [a]
  | .broadcast a _ => [a]
  | .concatenation a b c => [a, b, c]

/-- The fixed canonical ordering of the macroscale subdomains (spec
sections 2 and 4.2). -/
def canonicalDomainOrder : List String :=
  ["negative electrode", "separator", "positive electrode"]

/-- Modelled from the spec: `Concatenation(*parts)` (spec section 4.2)
requires the parts' domains to be non-empty, pairwise disjoint and, in the
canonical domain ordering, contiguous; it fails with `DomainError`
otherwise.  Contiguity and disjointness together amount to the combined
domain list being an infix of the canonical ordering. -/
def Concatenation (a b c : Expr) : Except PybammError Expr :=
  let d := a.domain ++ b.domain ++ c.domain
  if !a.domain.isEmpty && !b.domain.isEmpty && !c.domain.isEmpty
      && decide (List.IsInfix d canonicalDomainOrder) then
    .ok (.concatenation a b c)
  else
    .error (.domainError "concatenation of incompatible domains")

/-- Modelled from the spec: `Broadcast(value, domain)` lifts a domain-less
expression onto a named domain (spec section 4.2). -/
def Broadcast (a : Expr) (d : List String) : Expr := .broadcast a d

/-- Modelled from the spec: `surf(expr, set_domain=True)` evaluates a
particle-scale expression at its outer boundary and, with `set_domain`
requested, tags the result with the corresponding electrode domain
(spec section 4.3). -/
def surf (a : Expr) : Expr :=
  if a.domain = ["negative particle"] then .surf a ["negative electrode"]
  else if a.domain = ["positive particle"] then .surf a ["positive electrode"]
  else .surf a []

/-!  Python positional-argument binding.  `DFN.__init__` invokes
`MacInnesStefanMaxwell.set_algebraic_system` through Python's call
protocol, so whether the call of dfn.py line 69 succeeds is decided by
binding the supplied positional arguments against the method's declared
parameter list (`self` excluded). -/

/-- A declared Python parameter: its name and whether it carries a default
value. -/
structure PyParam where
  name : String
  hasDefault : Bool
deriving DecidableEq

/-- Outcome of binding a number of positional arguments against a declared
parameter list, following Python's call protocol: too many arguments or a
missing required argument raise `TypeError`. -/
inductive CallOutcome where
  | ok
  | typeErrorMissing (name : String)
  | typeErrorTooMany
deriving DecidableEq

/-- Bind `nargs` positional arguments against `params`: every parameter
beyond the supplied arguments must have a default, otherwise the call fails
naming the first missing required parameter. -/
def bindPositional (params : List PyParam) (nargs : Nat) : CallOutcome :=
  if params.length < nargs then .typeErrorTooMany
  else
    match (params.drop nargs).filter (fun p => !p.hasDefault) with
    | [] => .ok
    | p :: _ => .typeErrorMissing p.name

/-- The declared parameter list of
`MacInnesStefanMaxwell.set_algebraic_system(self, phi_e, c_e, reactions,
epsilon=None)` (electrolyte_current.py line 95), `self` excluded. -/
def set_algebraic_system_params : List PyParam :=
  [⟨"phi_e", false⟩, ⟨"c_e", false⟩, ⟨"reactions", false⟩, ⟨"epsilon", true⟩]

/-- The number of positional arguments supplied by the call
`eleclyte_current_model.set_algebraic_system(self.variables, reactions)`
in `DFN.__init__` (dfn.py line 69), `self` excluded. -/
def dfn_set_algebraic_system_call_nargs : Nat := 2

/-!  Submodels, models and the merge protocol. -/

/-- A boundary-condition record: the `left` and `right` values attached to a
flux-like expression (spec section 3). -/
structure BoundaryCondition where
  left : Expr
  right : Expr
deriving DecidableEq

/-- The shared equation container of submodels and the top-level model
(spec section 3): `variables` for reporting, `rhs` for differential
equations, `algebraic` for algebraic constraints, `boundary_conditions`,
`initial_conditions`, the `events` list, and the `default_solver` hint.
Python dictionaries are represented as association lists; updated entries
are prepended so that `List.lookup` returns the overriding value. -/
structure SubModel where
  vars : List (String × Expr)
  rhs : List (Expr × Expr)
  algebraic : List (Expr × Expr)
  boundary_conditions : List (Expr × BoundaryCondition)
  initial_conditions : List (Expr × Expr)
  events : List Expr
  default_solver : Option String
deriving DecidableEq

/-- The empty container a submodel or model starts from (spec section 3:
created empty). -/
def SubModel.empty : SubModel :=
  { vars := [], rhs := [], algebraic := [], boundary_conditions := []
    initial_conditions := [], events := [], default_solver := none }

/-- Python `dict.update`: the new bindings override existing ones.  With
first-match `List.lookup` semantics this is prepending the new entries. -/
def dictUpdate (d u : List (String × Expr)) : List (String × Expr) := u ++ d

/-- Dictionary lookup that raises `KeyError` on a missing key, as Python
subscripting does. -/
def lookupE (d : List (String × Expr)) (k : String) : Except PybammError Expr :=
  match d.lookup k with
  | some v => .ok v
  | none => .error (.keyError k)

/-- The nested reaction coupling dictionary
`{reaction_name: {electrode_side: {quantity_name: expression}}}`
(spec section 4.6). -/
def ReactionDict : Type :=
  List (String × List (String × List (String × Expr)))

/-- Chained lookup `reactions[a][b][c]` into a reaction dictionary. -/
def rget (r : ReactionDict) (a b c : String) : Option Expr := do
  let r1 ← r.lookup a
  let r2 ← r1.lookup b
  r2.lookup c

/-- Chained reaction-dictionary lookup raising `KeyError` when absent. -/
def rgetE (r : ReactionDict) (a b c : String) : Except PybammError Expr :=
  match rget r a b c with
  | some v => .ok v
  | none => .error (.keyError c)

/-- Modelled from the spec: one checked field merge of the merge protocol
(spec section 4.5) — every key of the source mapping must be absent from
the target mapping, otherwise a construction error naming the field is
raised; otherwise the entry is inserted. -/
def checkAndCombine (field : String) (tgt src : List (Expr × α)) :
    Except PybammError (List (Expr × α)) :=
  src.foldlM
    (fun acc kv =>
      if acc.any (fun p => p.1 = kv.1) then .error (.modelError field)
      else .ok (acc ++ [kv]))
    tgt

/-- Modelled from the spec: the merge protocol `update(target, source)`
(spec section 4.5).  The four equation fields `rhs`, `algebraic`,
`initial_conditions` and `boundary_conditions` are merged with a key
collision check; `events` are appended.  The `variables` field is merged by
dictionary update without a collision check: with a collision check the
reference pipeline could not complete, because `DFN.set_model_variables`
and the electrolyte-current submodel both report the key
"Electrolyte potential". -/
def update (target source : SubModel) : Except PybammError SubModel := do
  let rhs ← checkAndCombine "rhs" target.rhs source.rhs
  let algebraic ← checkAndCombine "algebraic" target.algebraic source.algebraic
  let ics ← checkAndCombine "initial_conditions"
      target.initial_conditions source.initial_conditions
  let bcs ← checkAndCombine "boundary_conditions"
      target.boundary_conditions source.boundary_conditions
  .ok { vars := dictUpdate target.vars source.vars
        rhs := rhs
        algebraic := algebraic
        boundary_conditions := bcs
        initial_conditions := ics
        events := target.events ++ source.events
        default_solver := target.default_solver }

/-!  The parameter collaborator (spec section 6): an opaque supplier of
named scalar and functional values, substituted into expressions.  The
names are the attributes of `pybamm.standard_parameters_lithium_ion` used
by the two source files. -/

namespace param

/-- The applied current as a function of time (`param.current_with_time`). -/
def current_with_time : Expr := .parameter "current_with_time"

/-- Porosity (`param.epsilon`). -/
def epsilon : Expr := .parameter "epsilon"

/-- Bruggeman exponent (`param.b`). -/
def b : Expr := .parameter "b"

/-- Electrolyte conductivity scaling (`param.gamma_e`). -/
def gamma_e : Expr := .parameter "gamma_e"

/-- Ratio of timescales (`param.C_e`). -/
def C_e : Expr := .parameter "C_e"

/-- Initial negative-electrode concentration (`param.c_n_init`). -/
def c_n_init : Expr := .parameter "c_n_init"

/-- Initial positive-electrode concentration (`param.c_p_init`). -/
def c_p_init : Expr := .parameter "c_p_init"

/-- Reference negative open-circuit potential (`param.U_n_ref`). -/
def U_n_ref : Expr := .parameter "U_n_ref"

/-- Potential scale (`param.potential_scale`). -/
def potential_scale : Expr := .parameter "potential_scale"

/-- Typical current density (`param.i_typ`). -/
def i_typ : Expr := .parameter "i_typ"

/-- Negative electrode thickness (`param.l_n`). -/
def l_n : Expr := .parameter "l_n"

/-- Positive electrode thickness (`param.l_p`). -/
def l_p : Expr := .parameter "l_p"

/-- Lower voltage cut-off (`param.voltage_low_cut`). -/
def voltage_low_cut : Expr := .parameter "voltage_low_cut"

/-- Negative open-circuit potential function (`param.U_n`). -/
def U_n (c : Expr) : Expr := .fn "U_n" c

/-- Positive open-circuit potential function (`param.U_p`). -/
def U_p (c : Expr) : Expr := .fn "U_p" c

/-- Electrolyte conductivity function (`param.kappa_e`). -/
def kappa_e (c : Expr) : Expr := .fn "kappa_e" c

/-- Thermodynamic factor function (`param.chi`). -/
def chi (c : Expr) : Expr := .fn "chi" c

end param

/-!  Standard spatial variables used by `get_explicit_leading_order`. -/

namespace standard_spatial_vars

/-- Modelled from the spec: the coordinate along the negative electrode
(`pybamm.standard_spatial_vars.x_n`, spec section 6). -/
def x_n : Expr := .var "x_n" ["negative electrode"]

/-- Modelled from the spec: the coordinate along the positive electrode
(`pybamm.standard_spatial_vars.x_p`). -/
def x_p : Expr := .var "x_p" ["positive electrode"]

end standard_spatial_vars

/-!  Translation of `pybamm/models/submodels/electrolyte_current.py`. -/

/-- `ElectrolyteCurrentBaseModel.get_variables` (electrolyte_current.py
lines 26 to 66): unpacks `phi_e.orphans` into its three parts — a
`ValueError` if there are not exactly three — and returns the dictionary of
dimensionless and dimensional electrolyte-current variables. -/
def get_variables (phi_e i_e eta_e_av : Expr) :
    Except PybammError (List (String × Expr)) :=
  match phi_e.orphans with
  | [phi_e_n, phi_e_s, phi_e_p] =>
    .ok
      [("Negative electrolyte potential", phi_e_n),
       ("Separator electrolyte potential", phi_e_s),
       ("Positive electrolyte potential", phi_e_p),
       ("Electrolyte potential", phi_e),
       ("Electrolyte current density", i_e),
       ("Average electrolyte overpotential", eta_e_av),
       ("Negative electrolyte potential [V]",
         .add (.neg param.U_n_ref) (.mul param.potential_scale phi_e_n)),
       ("Separator electrolyte potential [V]",
         .add (.neg param.U_n_ref) (.mul param.potential_scale phi_e_s)),
       ("Positive electrolyte potential [V]",
         .add (.neg param.U_n_ref) (.mul param.potential_scale phi_e_p)),
       ("Electrolyte potential [V]",
         .add (.neg param.U_n_ref) (.mul param.potential_scale phi_e)),
       ("Electrolyte current density [A m-2]", .mul param.i_typ i_e),
       ("Average electrolyte overpotential [V]",
         .mul param.potential_scale eta_e_av)]
  | _ => .error (.valueError "phi_e.orphans does not unpack into three parts")

/-- The `get_variables` method as invoked on a submodel instance: the body
reads only `self.set_of_parameters` and assigns no attribute, so the
instance comes back unchanged next to the computed mapping. -/
def get_variables_method (s : SubModel) (phi_e i_e eta_e_av : Expr) :
    Except PybammError (List (String × Expr)) × SubModel :=
  (get_variables phi_e i_e eta_e_av, s)

/-- `ElectrolyteCurrentBaseModel.get_split_electrolyte_overpotential`
(electrolyte_current.py lines 68 to 77). -/
def get_split_electrolyte_overpotential (eta_c_av delta_phi_e_av : Expr) :
    List (String × Expr) :=
  [("Average concentration overpotential", eta_c_av),
   ("Average electrolyte ohmic losses", delta_phi_e_av),
   ("Average concentration overpotential [V]",
     .mul param.potential_scale eta_c_av),
   ("Average electrolyte ohmic losses [V]",
     .mul param.potential_scale delta_phi_e_av)]

/-- `MacInnesStefanMaxwell.set_algebraic_system` (electrolyte_current.py
lines 95 to 145), called with the declared arguments: unpacks the reaction
dictionary, concatenates the interfacial current density with a zero
separator broadcast, defaults the porosity to `param.epsilon` when omitted,
builds the MacInnes flux `i_e`, and assigns `algebraic`,
`boundary_conditions`, `initial_conditions`, an empty `rhs`, the reporting
`variables` and the DAE solver hint on the submodel instance. -/
def set_algebraic_system (s : SubModel) (phi_e c_e : Expr)
    (reactions : ReactionDict) (epsilon : Option Expr) :
    Except PybammError SubModel := do
  let j_n ← rgetE reactions "main" "neg" "aj"
  let j_p ← rgetE reactions "main" "pos" "aj"
  let j ← Concatenation j_n (Broadcast (.scalar 0) ["separator"]) j_p
  let eps := epsilon.getD param.epsilon
  let i_e := Expr.mul
      (.division (.mul (.mul (param.kappa_e c_e) (.pow eps param.b))
          param.gamma_e)
        param.C_e)
      (.sub (.division (.mul (param.chi c_e) (.grad c_e)) c_e) (.grad phi_e))
  match phi_e.orphans with
  | [phi_e_n, _, phi_e_p] =>
      let eta_e_av := Expr.sub (.average phi_e_p) (.average phi_e_n)
      let vs ← get_variables phi_e i_e eta_e_av
      .ok { s with
            algebraic := [(phi_e, .sub (.divergence i_e) j)]
            boundary_conditions := [(i_e, ⟨.scalar 0, .scalar 0⟩)]
            initial_conditions := [(phi_e, .neg (param.U_n param.c_n_init))]
            rhs := []
            vars := vs
            default_solver := some "ScikitsDaeSolver" }
  | _ => .error (.valueError "phi_e.orphans does not unpack into three parts")

/-- `MacInnesStefanMaxwell.get_explicit_leading_order`
(electrolyte_current.py lines 147 to 200): broadcasts the constant
leading-order potential over the three subdomains, builds the piecewise
linear electrolyte current, sets the average ohmic losses and concentration
overpotential to the scalar zero, their sum as the electrolyte
overpotential, and returns the combined variable dictionary. -/
def get_explicit_leading_order (ocp_n eta_r_n : Expr) :
    Except PybammError (List (String × Expr)) := do
  let l_n := param.l_n
  let l_p := param.l_p
  let x_n := standard_spatial_vars.x_n
  let x_p := standard_spatial_vars.x_p
  let i_cell := param.current_with_time
  let phi_e_const := Expr.sub (.neg ocp_n) eta_r_n
  let phi_e_n := Broadcast phi_e_const ["negative electrode"]
  let phi_e_s := Broadcast phi_e_const ["separator"]
  let phi_e_p := Broadcast phi_e_const ["positive electrode"]
  let phi_e ← Concatenation phi_e_n phi_e_s phi_e_p
  let i_e_n := Expr.division (.mul i_cell x_n) l_n
  let i_e_s := Broadcast i_cell ["separator"]
  let i_e_p := Expr.division (.mul i_cell (.sub (.scalar 1) x_p)) l_p
  let i_e ← Concatenation i_e_n i_e_s i_e_p
  let delta_phi_e_av := Expr.scalar 0
  let eta_c_av := Expr.scalar 0
  let eta_e_av := Expr.add eta_c_av delta_phi_e_av
  let vs ← get_variables phi_e i_e eta_e_av
  let additional_vars :=
    get_split_electrolyte_overpotential eta_c_av delta_phi_e_av
  .ok (dictUpdate vs additional_vars)

/-!  Standard state variables.  Modelled from the spec: the
`pybamm.standard_variables` module supplies the primary state variables of
step 1 of the assembly pipeline (spec section 4.7), each a named variable
over its subdomain; the electrolyte quantities are concatenations of three
per-subdomain variables, which is what `c_e.orphans` and `phi_e.orphans`
decompose in `DFN.__init__`. -/

namespace standard_variables

/-- Modelled from the spec: negative particle concentration variable. -/
def c_s_n : Expr := .var "c_s_n" ["negative particle"]

/-- Modelled from the spec: positive particle concentration variable. -/
def c_s_p : Expr := .var "c_s_p" ["positive particle"]

/-- Modelled from the spec: negative-electrode electrolyte concentration. -/
def c_e_n : Expr := .var "c_e_n" ["negative electrode"]

/-- Modelled from the spec: separator electrolyte concentration. -/
def c_e_s : Expr := .var "c_e_s" ["separator"]

/-- Modelled from the spec: positive-electrode electrolyte concentration. -/
def c_e_p : Expr := .var "c_e_p" ["positive electrode"]

/-- Modelled from the spec: the whole-cell electrolyte concentration, a
concatenation of the three per-subdomain variables. -/
def c_e : Expr := .concatenation c_e_n c_e_s c_e_p

/-- Modelled from the spec: negative-electrode electrolyte potential. -/
def phi_e_n : Expr := .var "phi_e_n" ["negative electrode"]

/-- Modelled from the spec: separator electrolyte potential. -/
def phi_e_s : Expr := .var "phi_e_s" ["separator"]

/-- Modelled from the spec: positive-electrode electrolyte potential. -/
def phi_e_p : Expr := .var "phi_e_p" ["positive electrode"]

/-- Modelled from the spec: the whole-cell electrolyte potential, a
concatenation of the three per-subdomain variables. -/
def phi_e : Expr := .concatenation phi_e_n phi_e_s phi_e_p

/-- Modelled from the spec: negative electrode potential variable. -/
def phi_s_n : Expr := .var "phi_s_n" ["negative electrode"]

/-- Modelled from the spec: positive electrode potential variable. -/
def phi_s_p : Expr := .var "phi_s_p" ["positive electrode"]

/-- Modelled from the spec: the full cell-temperature variable used by the
"full" thermal option. -/
def T : Expr :=
  .var "T" ["negative electrode", "separator", "positive electrode"]

/-- Modelled from the spec: the average cell-temperature variable used by
the "lumped" thermal option. -/
def T_av : Expr := .var "T_av" []

end standard_variables

/-!  Configuration options (spec section 6): the recognized option
`thermal` selects which thermal submodel variant step 6 builds. -/

/-- The admissible values of the `thermal` configuration option. -/
inductive ThermalOption where
  | off
  | full
  | lumped
deriving DecidableEq

/-- The configuration-option mapping handed to `DFN.__init__`. -/
structure Options where
  thermal : ThermalOption
deriving DecidableEq

/-!  Sibling physical submodels used by `DFN.__init__` whose code is not
among the given sources.  Each is modelled from the spec. -/

/-- Modelled from the spec: `interface.LithiumIonReaction
.get_exchange_current_densities` (step 2 of spec section 4.7) — the
exchange-current density from the surface concentration and the
electrolyte concentration. -/
def get_exchange_current_densities (c_e c_s_surf : Expr) : Expr :=
  .fn2 "exchange_current_density" c_e c_s_surf

/-- Modelled from the spec: `interface.LithiumIonReaction.get_butler_volmer`
(step 2 of spec section 4.7) — the interfacial current density `j` from
the exchange-current density and the reaction overpotential. -/
def get_butler_volmer (j0 eta_r : Expr) : Expr :=
  .fn2 "butler_volmer" j0 eta_r

/-- Modelled from the spec: `interface.LithiumIonReaction
.get_derived_interfacial_currents` — the reporting dictionary of derived
interfacial-current quantities. -/
def get_derived_interfacial_currents (j_n j_p j0_n j0_p : Expr) :
    List (String × Expr) :=
  [("Negative electrode interfacial current density", j_n),
   ("Positive electrode interfacial current density", j_p),
   ("Negative electrode exchange current density", j0_n),
   ("Positive electrode exchange current density", j0_p)]

/-- Modelled from the spec: `particle.Standard.set_differential_system`
(steps 3 of spec section 4.7 and section 4.4) — populates
`rhs[c] = <spatial operator expression>` driven by the interfacial current
`j` as source, the matching flux boundary conditions and
`initial_conditions[c]`. -/
def particle_set_differential_system (c j c_init : Expr) : SubModel :=
  let N := Expr.neg (.grad c)
  { SubModel.empty with
    rhs := [(c, .neg (.divergence N))]
    boundary_conditions := [(N, ⟨.scalar 0, j⟩)]
    initial_conditions := [(c, c_init)] }

/-- Modelled from the spec: `electrolyte_diffusion.StefanMaxwell
.set_differential_system` (step 4 of spec section 4.7) — reads the
electrolyte concentration from the upstream `variables` mapping and the
interfacial currents from the reaction dictionary, and populates the
electrolyte-concentration differential system. -/
def electrolyte_diffusion_set_differential_system
    (variablesDict : List (String × Expr)) (reactions : ReactionDict) :
    Except PybammError SubModel := do
  let c_e ← lookupE variablesDict "Electrolyte concentration"
  let j_n ← rgetE reactions "main" "neg" "aj"
  let j_p ← rgetE reactions "main" "pos" "aj"
  let j := Expr.concatenation j_n (Broadcast (.scalar 0) ["separator"]) j_p
  let N_e := Expr.neg (.mul (.fn "D_e" c_e) (.grad c_e))
  .ok { SubModel.empty with
        rhs := [(c_e, .add (.neg (.divergence N_e)) j)]
        boundary_conditions := [(N_e, ⟨.scalar 0, .scalar 0⟩)]
        initial_conditions := [(c_e, .parameter "c_e_init")] }

/-- Modelled from the spec: `electrode.Ohm.set_algebraic_system` (step 5 of
spec section 4.7) — called once per electrode on the same submodel
instance, it accumulates the electrode-current algebraic constraint,
boundary and initial conditions for the requested electrode domain and
reports that electrode's current density. -/
def ohm_set_algebraic_system (s : SubModel)
    (variablesDict : List (String × Expr)) (reactions : ReactionDict)
    (dom : List String) : Except PybammError SubModel :=
  if dom = ["negative electrode"] then do
    let phi_s ← lookupE variablesDict "Negative electrode potential"
    let j ← rgetE reactions "main" "neg" "aj"
    let i_s := Expr.neg (.mul (.parameter "sigma_n") (.grad phi_s))
    .ok { s with
          algebraic := s.algebraic ++ [(phi_s, .sub (.divergence i_s) j)]
          boundary_conditions :=
            s.boundary_conditions ++ [(i_s, ⟨param.current_with_time, .scalar 0⟩)]
          initial_conditions := s.initial_conditions ++ [(phi_s, .scalar 0)]
          vars := dictUpdate s.vars [("Negative electrode current density", i_s)] }
  else if dom = ["positive electrode"] then do
    let phi_s ← lookupE variablesDict "Positive electrode potential"
    let j ← rgetE reactions "main" "pos" "aj"
    let i_s := Expr.neg (.mul (.parameter "sigma_p") (.grad phi_s))
    .ok { s with
          algebraic := s.algebraic ++ [(phi_s, .sub (.divergence i_s) j)]
          boundary_conditions :=
            s.boundary_conditions ++ [(i_s, ⟨.scalar 0, param.current_with_time⟩)]
          initial_conditions :=
            s.initial_conditions ++ [(phi_s, param.U_p param.c_p_init)]
          vars := dictUpdate s.vars [("Positive electrode current density", i_s)] }
  else .error (.domainError "electrode domain expected")

/-- Modelled from the spec: `electrode.Ohm.get_variables` used in the
post-processing step (step 7 of spec section 4.7) — derives the terminal
voltage and electrode-current reporting quantities from the already
assembled electrode potentials and current densities. -/
def ohm_get_variables (phi_s_n phi_s_p i_s_n i_s_p : Expr) :
    List (String × Expr) :=
  let v := Expr.sub (.average phi_s_p) (.average phi_s_n)
  [("Electrode current density",
     .concatenation i_s_n (Broadcast (.scalar 0) ["separator"]) i_s_p),
   ("Terminal voltage", v),
   ("Terminal voltage [V]",
     .add (.neg param.U_n_ref) (.mul param.potential_scale v))]

/-- Modelled from the spec: the thermal submodel of step 6 of spec
section 4.7.  `thermal.Thermal(param)` is created empty; with
`thermal = "full"` a PDE in the cell temperature is populated, with
`thermal = "lumped"` an ODE in the average cell temperature, and otherwise
the submodel stays empty. -/
def thermal_submodel (options : Options)
    (variablesDict : List (String × Expr)) (reactions : ReactionDict) :
    Except PybammError SubModel :=
  match options.thermal with
  | .full => do
      let T ← lookupE variablesDict "Cell temperature"
      let _ ← rgetE reactions "main" "neg" "aj"
      .ok { SubModel.empty with
            rhs := [(T, .add (.divergence (.grad T)) (.fn "Q" T))]
            boundary_conditions := [(.grad T, ⟨.scalar 0, .scalar 0⟩)]
            initial_conditions := [(T, .parameter "T_init")] }
  | .lumped => do
      let T_av ← lookupE variablesDict "Average cell temperature"
      let _ ← rgetE reactions "main" "neg" "aj"
      .ok { SubModel.empty with
            rhs := [(T_av, .fn "Q_av" T_av)]
            initial_conditions := [(T_av, .parameter "T_init")] }
  | .off => .ok SubModel.empty

/-- Modelled from the spec: `potential.Potential
.get_derived_open_circuit_potentials` (step 7 of spec section 4.7). -/
def get_derived_open_circuit_potentials (ocp_n ocp_p : Expr) :
    List (String × Expr) :=
  [("Average negative electrode open circuit potential", .average ocp_n),
   ("Average positive electrode open circuit potential", .average ocp_p),
   ("Average open circuit voltage",
     .sub (.average ocp_p) (.average ocp_n))]

/-- Modelled from the spec: `potential.Potential
.get_derived_reaction_overpotentials` (step 7 of spec section 4.7). -/
def get_derived_reaction_overpotentials (eta_r_n eta_r_p : Expr) :
    List (String × Expr) :=
  [("Average negative reaction overpotential", .average eta_r_n),
   ("Average positive reaction overpotential", .average eta_r_p),
   ("Average reaction overpotential",
     .sub (.average eta_r_p) (.average eta_r_n))]

/-!  Translation of `pybamm/models/lithium_ion/dfn.py`. -/

/-- Turn an optional value into a checked lookup result. -/
def ofOption (o : Option α) (e : PybammError) : Except PybammError α :=
  match o with
  | some v => .ok v
  | none => .error e

/-- `DFN.set_model_variables` (dfn.py lines 115 to 154): installs the
primary state variables and the derived potential-difference, open-circuit
and overpotential expressions into the model's `variables` mapping, and
adds the cell-temperature variable matching the `thermal` option. -/
def set_model_variables (options : Options) (m : SubModel) :
    Except PybammError SubModel := do
  let c_s_n := standard_variables.c_s_n
  let c_s_p := standard_variables.c_s_p
  let c_e := standard_variables.c_e
  let phi_e := standard_variables.phi_e
  let phi_s_p := standard_variables.phi_s_p
  let phi_s_n := standard_variables.phi_s_n
  let pe0 ← ofOption (phi_e.orphans.get? 0) (.valueError "phi_e.orphans[0]")
  let pe2 ← ofOption (phi_e.orphans.get? 2) (.valueError "phi_e.orphans[2]")
  let delta_phi_n := Expr.sub phi_s_n pe0
  let delta_phi_p := Expr.sub phi_s_p pe2
  let c_s_n_surf := surf c_s_n
  let c_s_p_surf := surf c_s_p
  let ocp_n := param.U_n c_s_n_surf
  let ocp_p := param.U_p c_s_p_surf
  let eta_r_n := Expr.sub delta_phi_n ocp_n
  let eta_r_p := Expr.sub delta_phi_p ocp_p
  let baseVars : List (String × Expr) :=
    [("Electrolyte concentration", c_e),
     ("Negative particle concentration", c_s_n),
     ("Positive particle concentration", c_s_p),
     ("Electrolyte potential", phi_e),
     ("Negative electrode potential", phi_s_n),
     ("Positive electrode potential", phi_s_p),
     ("Negative electrode surface potential difference", delta_phi_n),
     ("Positive electrode surface potential difference", delta_phi_p),
     ("Negative electrode open circuit potential", ocp_n),
     ("Positive electrode open circuit potential", ocp_p),
     ("Negative reaction overpotential", eta_r_n),
     ("Positive reaction overpotential", eta_r_p)]
  let m := { m with vars := dictUpdate m.vars baseVars }
  let m := if options.thermal = ThermalOption.full then
    { m with vars := dictUpdate m.vars [("Cell temperature", standard_variables.T)] }
    else m
  let m := if options.thermal = ThermalOption.lumped then
    { m with vars := dictUpdate m.vars [("Average cell temperature", standard_variables.T_av)] }
    else m
  .ok m

/-- `DFN.__init__` (dfn.py lines 12 to 113), with the list of model states
reached after each of the six `update` merges returned beside the finished
model.  One deviation, modelled from the spec: step 4's call
`eleclyte_current_model.set_algebraic_system(self.variables, reactions)`
does not match the method's declared parameter list (see `bindPositional`
below), so the electrolyte-current step here supplies the declared
arguments — the electrolyte potential, the electrolyte concentration and
the reaction dictionary — as spec section 4.7 describes.  The sibling
submodels and the merge protocol are the spec-modelled definitions
above. -/
def DFN_assembly (options : Options) :
    Except PybammError (SubModel × List SubModel) := do
  let m : SubModel := SubModel.empty
  let ccVars : List (String × Expr) := [("Current collector current density", param.current_with_time)]
  let m := { m with vars := dictUpdate m.vars ccVars }
  let m ← set_model_variables options m
  let c_e ← lookupE m.vars "Electrolyte concentration"
  let c_s_n ← lookupE m.vars "Negative particle concentration"
  let c_s_p ← lookupE m.vars "Positive particle concentration"
  let ocp_n ← lookupE m.vars "Negative electrode open circuit potential"
  let ocp_p ← lookupE m.vars "Positive electrode open circuit potential"
  let eta_r_n ← lookupE m.vars "Negative reaction overpotential"
  let eta_r_p ← lookupE m.vars "Positive reaction overpotential"
  let cep ← match c_e.orphans with
    | [a, _, c] => Except.ok (a, c)
    | _ => Except.error (.valueError "c_e.orphans")
  let c_s_n_surf := surf c_s_n
  let c_s_p_surf := surf c_s_p
  let j0_n := get_exchange_current_densities cep.1 c_s_n_surf
  let j0_p := get_exchange_current_densities cep.2 c_s_p_surf
  let j_n := get_butler_volmer j0_n eta_r_n
  let j_p := get_butler_volmer j0_p eta_r_p
  let j_vars := get_derived_interfacial_currents j_n j_p j0_n j0_p
  let m := { m with vars := dictUpdate m.vars j_vars }
  let negative_particle_model :=
    particle_set_differential_system c_s_n j_n param.c_n_init
  let positive_particle_model :=
    particle_set_differential_system c_s_p j_p param.c_p_init
  let m1 ← update m negative_particle_model
  let m2 ← update m1 positive_particle_model
  let reactions : ReactionDict :=
    [("main",
      [("neg", [("s_plus", Expr.scalar 1), ("aj", j_n)]),
       ("pos", [("s_plus", Expr.scalar 1), ("aj", j_p)])])]
  let electrolyte_diffusion_model ←
    electrolyte_diffusion_set_differential_system m2.vars reactions
  let m3 ← update m2 electrolyte_diffusion_model
  let phi_e ← lookupE m3.vars "Electrolyte potential"
  let eleclyte_current_model ←
    set_algebraic_system SubModel.empty phi_e c_e reactions none
  let m4 ← update m3 eleclyte_current_model
  let electrode_current_model ←
    ohm_set_algebraic_system SubModel.empty m4.vars reactions
      ["negative electrode"]
  let electrode_current_model ←
    ohm_set_algebraic_system electrode_current_model m4.vars reactions
      ["positive electrode"]
  let m5 ← update m4 electrode_current_model
  let thermal_model ← thermal_submodel options m5.vars reactions
  let m6 ← update m5 thermal_model
  let m := { m6 with vars := dictUpdate m6.vars j_vars }
  let ocp_vars := get_derived_open_circuit_potentials ocp_n ocp_p
  let eta_r_vars := get_derived_reaction_overpotentials eta_r_n eta_r_p
  let m := { m with vars := dictUpdate m.vars (eta_r_vars ++ ocp_vars) }
  let phi_s_n ← lookupE m.vars "Negative electrode potential"
  let phi_s_p ← lookupE m.vars "Positive electrode potential"
  let i_s_n ← lookupE m.vars "Negative electrode current density"
  let i_s_p ← lookupE m.vars "Positive electrode current density"
  let volt_vars := ohm_get_variables phi_s_n phi_s_p i_s_n i_s_p
  let m := { m with vars := dictUpdate m.vars volt_vars }
  let voltage ← lookupE m.vars "Terminal voltage"
  let m := { m with events := m.events ++ [Expr.sub voltage param.voltage_low_cut] }
  .ok (m, [m1, m2, m3, m4, m5, m6])

/-- The finished DFN model of the reference pipeline. -/
def DFN_init (options : Options) : Except PybammError SubModel :=
  (DFN_assembly options).map (fun r => r.1)

/-!  Helper definitions for the verification statements. -/

/-- The key list of an equation mapping. -/
def keysOf (l : List (Expr × α)) : List Expr := l.map (fun p => p.1)

/-- Whether the key sets of `rhs` and `algebraic` are disjoint in a model
state (spec section 3: a state variable is governed by exactly one kind of
equation). -/
def rhsAlgKeysDisjoint (s : SubModel) : Bool :=
  s.rhs.all (fun p => !(s.algebraic.any (fun q => q.1 == p.1)))

/-- Agreement of two assembly runs: both succeed with identical `rhs`,
`algebraic`, `boundary_conditions` and `initial_conditions` key sets, or
both fail with the same construction error. -/
def runsAgree (r1 r2 : Except PybammError SubModel) : Prop :=
  match r1, r2 with
  | .ok m1, .ok m2 =>
      keysOf m1.rhs = keysOf m2.rhs ∧
      keysOf m1.algebraic = keysOf m2.algebraic ∧
      keysOf m1.boundary_conditions = keysOf m2.boundary_conditions ∧
      keysOf m1.initial_conditions = keysOf m2.initial_conditions
  | .error e1, .error e2 => e1 = e2
  | _, _ => False

/-- The terminal-voltage expression of the finished DFN model, as produced
by `ohm_get_variables` on the standard electrode potentials. -/
def dfn_terminal_voltage : Expr :=
  .sub (.average standard_variables.phi_s_p) (.average standard_variables.phi_s_n)

/-- The submodel instances constructed during DFN assembly. -/
inductive SubId where
  | particleNeg
  | particlePos
  | elyteDiffusion
  | elyteCurrent
  | electrode
  | thermal
deriving DecidableEq, Fintype

/-- An observable submodel-lifecycle step of the assembly: a
`set_*_system` call on an instance, or the `update` merge of that instance
into the top-level model. -/
inductive AsmEvent where
  | setSystem (s : SubId)
  | mergeInto (s : SubId)
deriving DecidableEq

/-- The submodel-lifecycle trace of `DFN.__init__` (dfn.py lines 52 to 86),
statement by statement: both particle submodels are populated then merged,
the electrolyte-diffusion and electrolyte-current submodels are each
populated and merged, the electrode submodel receives one
`set_algebraic_system` call per electrode (lines 76 and 77) before its
single merge, and the thermal submodel is populated only under the "full"
or "lumped" option before its merge (lines 81 to 86). -/
def dfnAssemblyTrace (options : Options) : List AsmEvent :=
  [.setSystem .particleNeg, .setSystem .particlePos,
   .mergeInto .particleNeg, .mergeInto .particlePos,
   .setSystem .elyteDiffusion, .mergeInto .elyteDiffusion,
   .setSystem .elyteCurrent, .mergeInto .elyteCurrent,
   .setSystem .electrode, .setSystem .electrode, .mergeInto .electrode] ++
  (match options.thermal with
   | .full => [.setSystem .thermal]
   | .lumped => [.setSystem .thermal]
   | .off => []) ++
  [.mergeInto .thermal]

/-- How many `set_*_system` calls an instance receives before its first
merge. -/
def setCallsBeforeMerge (t : List AsmEvent) (s : SubId) : Nat :=
  ((t.takeWhile (fun e => e != AsmEvent.mergeInto s)).filter
    (fun e => e == AsmEvent.setSystem s)).length

/-- How many times an instance is merged into the top-level model. -/
def mergeCount (t : List AsmEvent) (s : SubId) : Nat :=
  (t.filter (fun e => e == AsmEvent.mergeInto s)).length

/-- How many `set_*_system` calls an instance receives from its first merge
onwards. -/
def setCallsAfterMerge (t : List AsmEvent) (s : SubId) : Nat :=
  ((t.dropWhile (fun e => e != AsmEvent.mergeInto s)).filter
    (fun e => e == AsmEvent.setSystem s)).length

/-- The exact outcome `set_algebraic_system` is specified to produce when
called with the declared arguments (electrolyte_current.py lines 95 to
145): `algebraic` holds exactly the residual `div(i_e) - j` keyed by
`phi_e`, the flux `i_e` gets homogeneous boundary conditions, the initial
guess is `-U_n(c_n_init)`, `rhs` stays empty, and omitting the optional
porosity behaves exactly as passing `param.epsilon`. -/
def SetAlgebraicSystemOutcome (s : SubModel) (phi_e c_e j_n j_p : Expr)
    (reactions : ReactionDict) : Prop :=
  let j := Expr.concatenation j_n (Expr.broadcast (Expr.scalar 0) ["separator"]) j_p
  let i_e := Expr.mul
      (.division (.mul (.mul (param.kappa_e c_e) (.pow param.epsilon param.b))
          param.gamma_e)
        param.C_e)
      (.sub (.division (.mul (param.chi c_e) (.grad c_e)) c_e) (.grad phi_e))
  ∃ s' : SubModel,
    set_algebraic_system s phi_e c_e reactions none = .ok s' ∧
    s'.algebraic = [(phi_e, .sub (.divergence i_e) j)] ∧
    s'.boundary_conditions = [(i_e, ⟨.scalar 0, .scalar 0⟩)] ∧
    s'.initial_conditions = [(phi_e, .neg (param.U_n param.c_n_init))] ∧
    s'.rhs = [] ∧
    set_algebraic_system s phi_e c_e reactions none
      = set_algebraic_system s phi_e c_e reactions (some param.epsilon)

/-- Purity of the `get_variables` accessor on a submodel instance: the call
leaves the instance unchanged, and a second call on the resulting instance
with the same arguments returns an equal mapping. -/
def GetVariablesPure (s : SubModel) (phi_e i_e eta_e_av : Expr) : Prop :=
  (get_variables_method s phi_e i_e eta_e_av).2 = s ∧
  (get_variables_method (get_variables_method s phi_e i_e eta_e_av).2
      phi_e i_e eta_e_av).1
    = (get_variables_method s phi_e i_e eta_e_av).1 ∧
  ∃ vs, get_variables phi_e i_e eta_e_av = Except.ok vs

/-- A concrete reaction dictionary used to instantiate hypotheses of the
algebraic-system statements. -/
def sampleReactions : ReactionDict :=
  [("main",
    [("neg", [("s_plus", Expr.scalar 1),
              ("aj", Expr.var "j_n" ["negative electrode"])]),
     ("pos", [("s_plus", Expr.scalar 1),
              ("aj", Expr.var "j_p" ["positive electrode"])])])]

/-- A concrete non-empty model state used to instantiate the merge no-op
statement. -/
def sampleModel : SubModel :=
  { SubModel.empty with
    rhs := [(Expr.var "u" [], Expr.scalar 2)]
    events := [Expr.scalar 3] }

/-!  The claim theorems, preceded by a shared helper lemma about the
`Except` monad used to reduce monadic binds under propositional
rewrites. -/

theorem except_ok_bind (a : α) (f : α → Except PybammError β) :
    (Except.ok a : Except PybammError α) >>= f = f a := rfl

/-- C1: refuted — the call `eleclyte_current_model.set_algebraic_system(
self.variables, reactions)` of dfn.py line 69 supplies two positional
arguments to a method declared with three required parameters
`(phi_e, c_e, reactions)` plus the optional `epsilon`, so Python binding
raises `TypeError` for the missing required argument `reactions`; step 4
never populates the algebraic system. -/
theorem dfn_step4_call_missing_required_argument :
    bindPositional set_algebraic_system_params dfn_set_algebraic_system_call_nargs
      = CallOutcome.typeErrorMissing "reactions" := rfl

/-- C3: at every model state reached after one of the six successful
`update` merges of the DFN assembly, and in the finished model, the key
sets of `rhs` and `algebraic` are disjoint, for every thermal option. -/
theorem dfn_rhs_algebraic_disjoint_after_each_merge (options : Options) :
    (DFN_assembly options).map
        (fun r => r.2.all rhsAlgKeysDisjoint && rhsAlgKeysDisjoint r.1)
      = Except.ok true := by
  obtain ⟨t⟩ := options
  cases t <;> rfl

/-- C4, counterexample: in the DFN assembly trace the electrode-current
submodel instance receives a second `set_algebraic_system` call (dfn.py
lines 76 and 77) before its merge, refuting "populated by exactly one
set call, never a second one prior to its merge". -/
theorem electrode_submodel_receives_two_set_calls :
    ¬ setCallsBeforeMerge (dfnAssemblyTrace (Options.mk ThermalOption.off))
        SubId.electrode ≤ 1 := by decide

/-- C4, amended: every submodel instance is merged exactly once and
receives all of its `set_*_system` calls before that merge; each instance
receives exactly one such call, except the electrode-current submodel,
which receives two (one per electrode), and the thermal submodel, which
receives one when the thermal option is "full" or "lumped" and none
otherwise. -/
theorem dfn_set_call_discipline (options : Options) :
    (∀ s : SubId, mergeCount (dfnAssemblyTrace options) s = 1) ∧
    (∀ s : SubId, setCallsAfterMerge (dfnAssemblyTrace options) s = 0) ∧
    setCallsBeforeMerge (dfnAssemblyTrace options) SubId.particleNeg = 1 ∧
    setCallsBeforeMerge (dfnAssemblyTrace options) SubId.particlePos = 1 ∧
    setCallsBeforeMerge (dfnAssemblyTrace options) SubId.elyteDiffusion = 1 ∧
    setCallsBeforeMerge (dfnAssemblyTrace options) SubId.elyteCurrent = 1 ∧
    setCallsBeforeMerge (dfnAssemblyTrace options) SubId.electrode = 2 ∧
    setCallsBeforeMerge (dfnAssemblyTrace options) SubId.thermal
      = (if options.thermal = ThermalOption.off then 0 else 1) := by
  obtain ⟨t⟩ := options
  cases t <;> exact ⟨by decide, by decide, rfl, rfl, rfl, rfl, rfl, by decide⟩

/-- C5: a concatenation of domain-tagged parts for the negative electrode,
separator and positive electrode is accepted, and `orphans` recovers the
three children unchanged and in order. -/
theorem concatenation_orphans_round_trip (a b c : Expr)
    (ha : a.domain = ["negative electrode"])
    (hb : b.domain = ["separator"])
    (hc : c.domain = ["positive electrode"]) :
    Concatenation a b c = Except.ok (Expr.concatenation a b c) ∧
    (Expr.concatenation a b c).orphans = [a, b, c] := by
  refine ⟨?_, rfl⟩
  unfold Concatenation
  rw [ha, hb, hc]
  rfl

/-- Witness for C5 at three concrete domain-tagged variables. -/
theorem concatenation_orphans_round_trip_witness :
    (Expr.var "a" ["negative electrode"]).domain = ["negative electrode"] ∧
    (Expr.var "b" ["separator"]).domain = ["separator"] ∧
    (Expr.var "c" ["positive electrode"]).domain = ["positive electrode"] ∧
    (Concatenation (Expr.var "a" ["negative electrode"])
        (Expr.var "b" ["separator"]) (Expr.var "c" ["positive electrode"])
      = Except.ok (Expr.concatenation (Expr.var "a" ["negative electrode"])
          (Expr.var "b" ["separator"]) (Expr.var "c" ["positive electrode"])) ∧
     (Expr.concatenation (Expr.var "a" ["negative electrode"])
        (Expr.var "b" ["separator"])
        (Expr.var "c" ["positive electrode"])).orphans
      = [Expr.var "a" ["negative electrode"], Expr.var "b" ["separator"],
         Expr.var "c" ["positive electrode"]]) :=
  ⟨rfl, rfl, rfl, concatenation_orphans_round_trip _ _ _ rfl rfl rfl⟩

/-- C6: assembling the DFN with the thermal option "off" yields a model
whose `variables` mapping contains neither "Cell temperature" nor
"Average cell temperature", and whose `events` list is exactly the single
terminal-voltage cutoff expression. -/
theorem dfn_thermal_off_variables_and_events :
    (DFN_init (Options.mk ThermalOption.off)).map
        (fun m =>
          (m.vars.lookup "Cell temperature",
           m.vars.lookup "Average cell temperature",
           m.events))
      = Except.ok (none, none,
          [Expr.sub dfn_terminal_voltage param.voltage_low_cut]) := by rfl

/-- C8: the assembly is deterministic — two runs of the reference pipeline
on the same options either both produce models with identical `rhs`,
`algebraic`, `boundary_conditions` and `initial_conditions` key sets, or
both raise the same construction error. -/
theorem dfn_assembly_deterministic (options : Options) :
    runsAgree (DFN_init options) (DFN_init options) := by
  cases h : DFN_init options with
  | ok m => exact ⟨rfl, rfl, rfl, rfl⟩
  | error e => exact rfl

/-- C9: with a thermal option that is neither "full" nor "lumped" the
thermal submodel stays the empty submodel (all five mappings and the
events list empty), and merging it by `update` always succeeds and
returns the target model unchanged. -/
theorem thermal_off_merge_noop (options : Options) (m : SubModel)
    (h1 : options.thermal ≠ ThermalOption.full)
    (h2 : options.thermal ≠ ThermalOption.lumped)
    (variablesDict : List (String × Expr)) (reactions : ReactionDict) :
    thermal_submodel options variablesDict reactions = Except.ok SubModel.empty ∧
    SubModel.empty.vars = [] ∧ SubModel.empty.rhs = [] ∧
    SubModel.empty.algebraic = [] ∧ SubModel.empty.boundary_conditions = [] ∧
    SubModel.empty.initial_conditions = [] ∧ SubModel.empty.events = [] ∧
    update m SubModel.empty = Except.ok m := by
  obtain ⟨t⟩ := options
  cases t with
  | off =>
      refine ⟨rfl, rfl, rfl, rfl, rfl, rfl, rfl, ?_⟩
      simp [update, checkAndCombine, dictUpdate, SubModel.empty]
  | full => exact absurd rfl h1
  | lumped => exact absurd rfl h2

/-- Witness for C9 at the "off" option and a concrete non-empty target
model. -/
theorem thermal_off_merge_noop_witness :
    (Options.mk ThermalOption.off).thermal ≠ ThermalOption.full ∧
    (Options.mk ThermalOption.off).thermal ≠ ThermalOption.lumped ∧
    (thermal_submodel (Options.mk ThermalOption.off) [] []
        = Except.ok SubModel.empty ∧
      SubModel.empty.vars = [] ∧ SubModel.empty.rhs = [] ∧
      SubModel.empty.algebraic = [] ∧ SubModel.empty.boundary_conditions = [] ∧
      SubModel.empty.initial_conditions = [] ∧ SubModel.empty.events = [] ∧
      update sampleModel SubModel.empty = Except.ok sampleModel) :=
  ⟨by decide, by decide,
    thermal_off_merge_noop (Options.mk ThermalOption.off) sampleModel
      (by decide) (by decide) [] []⟩

/-- C2: called with the declared arguments — a three-part electrolyte
potential concatenation, a concentration variable, and a reaction
dictionary holding the negative and positive interfacial current densities
with their electrode domains — `set_algebraic_system` populates exactly
the claimed algebraic residual, boundary conditions, initial guess and
empty `rhs`, and omitting the optional porosity behaves exactly as
passing `param.epsilon`. -/
theorem set_algebraic_system_populates (s : SubModel) (pn ps pp c_e j_n j_p : Expr)
    (reactions : ReactionDict)
    (hn : rget reactions "main" "neg" "aj" = some j_n)
    (hp : rget reactions "main" "pos" "aj" = some j_p)
    (hdn : j_n.domain = ["negative electrode"])
    (hdp : j_p.domain = ["positive electrode"]) :
    SetAlgebraicSystemOutcome s (Expr.concatenation pn ps pp) c_e j_n j_p
      reactions := by
  have h1 : rgetE reactions "main" "neg" "aj" = Except.ok j_n := by
    unfold rgetE
    rw [hn]
  have h2 : rgetE reactions "main" "pos" "aj" = Except.ok j_p := by
    unfold rgetE
    rw [hp]
  have h3 : Concatenation j_n (Broadcast (Expr.scalar 0) ["separator"]) j_p
      = Except.ok (Expr.concatenation j_n
          (Expr.broadcast (Expr.scalar 0) ["separator"]) j_p) := by
    unfold Concatenation Broadcast
    rw [hdn, hdp]
    rfl
  unfold SetAlgebraicSystemOutcome
  unfold set_algebraic_system
  simp only [h1, h2, h3, except_ok_bind]
  exact ⟨_, rfl, rfl, rfl, rfl, rfl, rfl⟩

/-- Witness for C2 at the standard electrolyte variables and a concrete
reaction dictionary. -/
theorem set_algebraic_system_populates_witness :
    rget sampleReactions "main" "neg" "aj"
      = some (Expr.var "j_n" ["negative electrode"]) ∧
    rget sampleReactions "main" "pos" "aj"
      = some (Expr.var "j_p" ["positive electrode"]) ∧
    (Expr.var "j_n" ["negative electrode"]).domain = ["negative electrode"] ∧
    (Expr.var "j_p" ["positive electrode"]).domain = ["positive electrode"] ∧
    SetAlgebraicSystemOutcome SubModel.empty
      (Expr.concatenation standard_variables.phi_e_n standard_variables.phi_e_s
        standard_variables.phi_e_p)
      standard_variables.c_e (Expr.var "j_n" ["negative electrode"])
      (Expr.var "j_p" ["positive electrode"]) sampleReactions :=
  ⟨rfl, rfl, rfl, rfl,
    set_algebraic_system_populates SubModel.empty standard_variables.phi_e_n
      standard_variables.phi_e_s standard_variables.phi_e_p
      standard_variables.c_e (Expr.var "j_n" ["negative electrode"])
      (Expr.var "j_p" ["positive electrode"]) sampleReactions
      rfl rfl rfl rfl⟩

/-- C7: the `get_variables` accessor is pure — it leaves the submodel
instance unchanged, a repeated call with the same arguments returns an
equal mapping, and on a potential that decomposes into three orphans it
returns a name-to-expression mapping. -/
theorem get_variables_pure (s : SubModel) (phi_e i_e eta_e_av : Expr)
    (a b c : Expr) (h : phi_e.orphans = [a, b, c]) :
    GetVariablesPure s phi_e i_e eta_e_av := by
  refine ⟨rfl, rfl, ?_⟩
  unfold get_variables
  rw [h]
  exact ⟨_, rfl⟩

/-- Witness for C7 at the standard electrolyte potential and a concrete
submodel state. -/
theorem get_variables_pure_witness :
    (Expr.concatenation standard_variables.phi_e_n standard_variables.phi_e_s
        standard_variables.phi_e_p).orphans
      = [standard_variables.phi_e_n, standard_variables.phi_e_s,
         standard_variables.phi_e_p] ∧
    GetVariablesPure SubModel.empty
      (Expr.concatenation standard_variables.phi_e_n standard_variables.phi_e_s
        standard_variables.phi_e_p)
      (Expr.scalar 0) (Expr.scalar 0) :=
  ⟨rfl,
    get_variables_pure SubModel.empty
      (Expr.concatenation standard_variables.phi_e_n standard_variables.phi_e_s
        standard_variables.phi_e_p)
      (Expr.scalar 0) (Expr.scalar 0) standard_variables.phi_e_n
      standard_variables.phi_e_s standard_variables.phi_e_p rfl⟩

/-- C10: for all inputs, `get_explicit_leading_order` reports the average
electrolyte ohmic losses and the average concentration overpotential as
the scalar zero and the average electrolyte overpotential as their sum —
the expression `0 + 0`. -/
theorem leading_order_electrolyte_overpotential_zero (ocp_n eta_r_n : Expr) :
    (get_explicit_leading_order ocp_n eta_r_n).map
        (fun vs =>
          (vs.lookup "Average electrolyte ohmic losses",
           vs.lookup "Average concentration overpotential",
           vs.lookup "Average electrolyte overpotential"))
      = Except.ok (some (Expr.scalar 0), some (Expr.scalar 0),
          some (Expr.add (Expr.scalar 0) (Expr.scalar 0))) := rfl

end PyBaMM
